import Mathlib

/-!
Shallow embedding of the model acquisition and lifecycle manager of the
react-native-gemma application: the artifact locator/prober and download
logic of the application layer, the TypeScript inference bridge
(`GemmaInference`), the Kotlin native module (`GemmaModule`), and the
session orchestration (`initModel`, `sendMessage`).

External effects (the filesystem, the HTTP transfer, the native inference
engine, the millisecond clock) are passed in explicitly as parameters, and
the definitions mirror the control flow of the source functions.
-/

namespace Gemma

/-- Filesystem model: each path carries `some size` (a regular file of
`size` bytes) or `none` (absent).  This is all `RNFS.exists`,
`File.exists` and `File.length` observe. -/
def FS : Type := String → Option Nat

/-- Overwrite the file at path `p` with a file of `sz` bytes. -/
def fsUpdate (fs : FS) (p : String) (sz : Nat) : FS :=
  fun q => if q = p then some sz else fs q

/-- `RNFS.exists`: a file (of any size, zero included) is present. -/
def rnfsExists (fs : FS) (p : String) : Bool :=
  (fs p).isSome

/-- `MODEL_NAME = 'gemma3n.litertlm'`. -/
def MODEL_NAME : String := "gemma3n.litertlm"

/-- `MODELS_PATH` as a function of `RNFS.DocumentDirectoryPath`. -/
def MODELS_PATH (documentDirectoryPath : String) : String :=
  documentDirectoryPath ++ "/models"

/-- `MODEL_PATH = MODELS_PATH/MODEL_NAME`. -/
def MODEL_PATH (documentDirectoryPath : String) : String :=
  MODELS_PATH documentDirectoryPath ++ "/" ++ MODEL_NAME

/-- `checkModelExists`: wraps the underlying `RNFS.exists` call in
try/catch; `probe` is the outcome of that call (`.error` when it throws).
On a thrown error the function returns `false` instead of propagating. -/
def checkModelExists (probe : Except String Bool) : Bool :=
  match probe with
  | .ok b => b
  | .error _ => false

/-- One attempted HTTP transfer of the artifact, as observed by
`RNFS.downloadFile`: the declared `Content-Length`, the number of bytes
actually delivered and streamed to disk before the attempt ended, and the
final status (`none` models a network failure / interruption with no
status, `some c` a response that finished with HTTP status `c`). -/
structure Transfer where
  contentLength : Nat
  delivered : Nat
  status : Option Nat
deriving DecidableEq, Repr

/-- The filesystem effect of `RNFS.downloadFile { fromUrl, toFile:
MODEL_PATH, ... }`: bytes are streamed directly to the destination path,
so after the attempt the destination holds the `delivered` bytes whether
or not the transfer completed. -/
def downloadFileEffect (fs : FS) (documentDirectoryPath : String) (t : Transfer) : FS :=
  fsUpdate fs (MODEL_PATH documentDirectoryPath) t.delivered

/-- `downloadModel` resolves `true` exactly when the awaited promise
carries `statusCode === 200`; every other outcome (non-200 status or a
rejected promise) lands in the catch block and resolves `false`. -/
def downloadSucceeds (t : Transfer) : Bool :=
  t.status == some 200

/-- The progress callback computes
`(res.bytesWritten / res.contentLength) * 100` in JS float arithmetic.
There is no guard: when `contentLength = 0` the division produces a
non-finite value (`Infinity` or `NaN`), modelled as `none`; otherwise the
exact rational value is returned. -/
def progressPercent (bytesWritten contentLength : Nat) : Option ℚ :=
  if contentLength = 0 then none
  else some ((bytesWritten : ℚ) / (contentLength : ℚ) * 100)

/-- JS `String.prototype.trim` (and Lean's `String.trim`) over the
character sequence: strips leading and trailing whitespace. -/
def jsTrim (s : String) : String :=
  String.mk (((s.data.dropWhile Char.isWhitespace).reverse.dropWhile
    Char.isWhitespace).reverse)

/-! ### Kotlin native module `GemmaModule` -/

/-- `GemmaModule.loadModel`: checks `modelFile.exists()` and
`modelFile.length() == 0L` and rejects before the native constructor;
otherwise `LlmInference.createFromOptions` runs (`engineOk` models whether
it succeeds).  The second component records whether the native constructor
was invoked. -/
def loadModel (fs : FS) (modelPath : String) (engineOk : Bool) :
    Except String Unit × Bool :=
  match fs modelPath with
  | none => (.error ("Model file not found at: " ++ modelPath), false)
  | some sz =>
    if sz = 0 then (.error ("Model file is empty: " ++ modelPath), false)
    else if engineOk then (.ok (), true)
    else (.error ("LOAD_ERROR"), true)

/-- Errors of the generation paths, following the reject codes of
`GemmaModule` and the messages of `GemmaInference.generate`. -/
inductive GenError where
  | notInitialized
  | emptyPrompt
  | imageNotFound (p : String)
  | noModel
  | fileNotFound
  | invalidImage
  | engineFailure (m : String)
deriving DecidableEq, Repr

/-- Outcome of `GemmaModule.generateWithImage`: the result, whether
`BitmapFactory.decodeFile` produced a bitmap, and whether
`bitmap.recycle()` ran before the call returned. -/
structure ImgGenOutcome where
  result : Except GenError String
  bitmapDecoded : Bool
  bitmapRecycled : Bool
deriving Repr

/-- `GemmaModule.generateWithImage`: null-model guard, image existence
check, bitmap decode (`decodeOk` models `decodeFile` returning non-null),
then the session engine call (`engine`); `bitmap.recycle()` is the
statement after the engine call, so it runs only when the engine call
returns normally — an exception jumps to the catch block past it. -/
def generateWithImage (modelLoaded : Bool) (imageExists : Bool)
    (decodeOk : Bool) (engine : Except String String) : ImgGenOutcome :=
  if modelLoaded = false then ⟨.error .noModel, false, false⟩
  else if imageExists = false then ⟨.error .fileNotFound, false, false⟩
  else if decodeOk = false then ⟨.error .invalidImage, false, false⟩
  else
    match engine with
    | .ok response => ⟨.ok response, true, true⟩
    | .error m => ⟨.error (.engineFailure m), true, false⟩

/-- `GemmaModule.generate` (text only): null-model guard then the engine
call. -/
def nativeGenerate (modelLoaded : Bool) (engine : Except String String) :
    Except GenError String :=
  if modelLoaded = false then .error .noModel
  else
    match engine with
    | .ok response => .ok response
    | .error m => .error (.engineFailure m)

/-- `GemmaModule.unloadModel`: `model?.close(); model = null; resolve` —
for a null model, `close` is skipped and the call resolves; for a live
model, `closeFails` models `close()` throwing, in which case the null
assignment is not reached. -/
def unloadModel (model : Option Unit) (closeFails : Bool) :
    Except String (Option Unit) :=
  match model with
  | none => .ok none
  | some _ => if closeFails then .error ("UNLOAD_ERROR") else .ok none

/-! ### TypeScript bridge `GemmaInference` -/

/-- The static state of the `GemmaInference` class together with the
Kotlin-side model slot. -/
structure BridgeState where
  model : Option Unit
  isInitialized : Bool
deriving DecidableEq, Repr

/-- `GemmaInference.initialize` (named `initBridge` here since
`initialize` is a Lean keyword): `RNFS.exists` guard, then
`GemmaModule.loadModel`; the catch block wraps every failure message.
Returns the result, the updated state, and whether the native constructor
was invoked. -/
def initBridge (st : BridgeState) (fs : FS) (modelPath : String)
    (engineOk : Bool) : Except String Unit × BridgeState × Bool :=
  if rnfsExists fs modelPath = false then
    (.error ("Failed to initialize Gemma model: Model file not found at: " ++ modelPath),
     { st with isInitialized := false }, false)
  else
    match loadModel fs modelPath engineOk with
    | (.ok _, inv) => (.ok (), { model := some (), isInitialized := true }, inv)
    | (.error m, inv) =>
      (.error ("Failed to initialize Gemma model: " ++ m),
       { st with isInitialized := false }, inv)

/-- `normalizePath`: strip a `file:///` scheme down to the plain path
(`substring(7)` keeps the third slash). -/
def normalizePath (path : String) : String :=
  if path.startsWith ("file:///") then path.drop 7 else path

/-- Outcome of `GemmaInference.generate`: the result, the (unchanged)
bridge state, and whether any native generate entry point was invoked. -/
structure GenOutcome where
  result : Except GenError String
  state : BridgeState
  nativeCalled : Bool
deriving Repr

/-- `GemmaInference.generate`: initialization guard, empty-prompt guard
(`!prompt?.trim()`), then either the image path (existence check,
`normalizePath`, `generateWithImage`) or the text path
(`GemmaModule.generate`).  `imageFs` models `RNFS.exists` on the image
path, `decodeOk` the bitmap decode, `engine` the native engine call. -/
def generate (st : BridgeState) (prompt : String) (imagePath : Option String)
    (imageFs : FS) (decodeOk : Bool) (engine : Except String String) :
    GenOutcome :=
  if st.isInitialized = false then ⟨.error .notInitialized, st, false⟩
  else if jsTrim prompt = "" then ⟨.error .emptyPrompt, st, false⟩
  else
    match imagePath with
    | some ip =>
      if jsTrim ip = "" then
        ⟨nativeGenerate st.model.isSome engine, st, true⟩
      else if rnfsExists imageFs ip = false then
        ⟨.error (.imageNotFound ip), st, false⟩
      else
        let cleanPath := normalizePath ip
        let out := generateWithImage st.model.isSome (rnfsExists imageFs cleanPath)
          decodeOk engine
        ⟨out.result, st, true⟩
    | none => ⟨nativeGenerate st.model.isSome engine, st, true⟩

/-- `GemmaInference.unload`: no-op when not initialized; otherwise calls
`GemmaModule.unloadModel`, clearing the flag on success and rethrowing on
failure (state untouched on the error path, since `close()` throws before
`model = null`). -/
def unload (st : BridgeState) (closeFails : Bool) :
    Except String Unit × BridgeState :=
  if st.isInitialized = false then (.ok (), st)
  else
    match unloadModel st.model closeFails with
    | .ok m => (.ok (), ⟨m, false⟩)
    | .error e => (.error e, st)

/-! ### Session orchestrator (`App`) -/

/-- The spec's `ReadinessState` enum; the application tracks it through
the `modelReady` / `downloading` / `downloadError` flags, and the phases
of `initModel` map onto these states. -/
inductive ReadinessState where
  | Uninitialized
  | CheckingArtifact
  | Downloading
  | Activating
  | Ready
  | Failed (reason : String)
deriving DecidableEq, Repr

/-- Outcome of one run of `initModel`: the sequence of readiness states it
passes through, whether `downloadModel` was invoked, and the final
`modelReady` flag. -/
structure InitOutcome where
  trace : List ReadinessState
  downloadInvoked : Bool
  modelReady : Bool
deriving DecidableEq, Repr

/-- `initModel`: probe via `checkModelExists`, download via
`downloadModel` only when the probe reports the artifact absent, then
`GemmaInference.initialize` and `setModelReady(true)`.  `probe` is the
outcome of the underlying existence check, `t` the transfer a download
attempt would observe, `activateOk` whether activation succeeds. -/
def initModel (probe : Except String Bool) (t : Transfer) (activateOk : Bool) :
    InitOutcome :=
  let pre := [ReadinessState.Uninitialized, ReadinessState.CheckingArtifact]
  let modelExists := checkModelExists probe
  if modelExists = false then
    if downloadSucceeds t = false then
      ⟨pre ++ [.Downloading, .Failed ("download")], true, false⟩
    else if activateOk then
      ⟨pre ++ [.Downloading, .Activating, .Ready], true, true⟩
    else
      ⟨pre ++ [.Downloading, .Activating, .Failed ("activation")], true, false⟩
  else if activateOk then
    ⟨pre ++ [.Activating, .Ready], false, true⟩
  else
    ⟨pre ++ [.Activating, .Failed ("activation")], false, false⟩

/-- Message sender, `'user' | 'ai'`. -/
inductive Sender where
  | user
  | ai
deriving DecidableEq, Repr

/-- The numeric value each message id is derived from: `Date.now()` for a
user message, `Date.now() + 1` for an assistant message. -/
def idNum : Sender → Nat → Nat
  | .user, now => now
  | .ai, now => now + 1

/-- The id string: `Date.now().toString()` resp.
`(Date.now() + 1).toString()`. -/
def msgId (s : Sender) (now : Nat) : String :=
  toString (idNum s now)

/-- A `Message` of the chat log. -/
structure Message where
  id : String
  text : String
  sender : Sender
  image : Option String
deriving DecidableEq, Repr

/-- The application state that `sendMessage` reads and writes. -/
structure AppState where
  messages : List Message
  input : String
  selectedImage : Option String
  loading : Bool
  modelReady : Bool
deriving DecidableEq, Repr

/-- The user message `sendMessage` builds from the current input at clock
time `now`. -/
def mkUserMsg (st : AppState) (now : Nat) : Message :=
  ⟨msgId .user now, st.input, .user, st.selectedImage⟩

/-- `sendMessage`: the two early-return guards, append of the user
message, input/image reset, then the generation call — on success the
assistant message (built at clock time `now2`) is appended, on failure the
catch block only logs; `finally` clears `loading` on both paths. -/
def sendMessage (st : AppState) (now now2 : Nat)
    (gen : Except String String) : AppState :=
  if jsTrim st.input = "" ∧ st.selectedImage = none then st
  else if st.modelReady = false then st
  else
    let userMsg := mkUserMsg st now
    let updated := st.messages ++ [userMsg]
    let st1 : AppState :=
      { st with messages := updated, input := "", selectedImage := none,
                loading := true }
    match gen with
    | .ok response =>
      let aiMsg : Message := ⟨msgId .ai now2, response, .ai, none⟩
      { st1 with messages := updated ++ [aiMsg], loading := false }
    | .error _ => { st1 with loading := false }

/-! ### Theorems -/

/-- C1: the claim that a failed or interrupted download never leaves a
file at the canonical path that `checkModelExists` treats as valid fails
on the code: `downloadModel` streams directly to `MODEL_PATH`, so a
transfer interrupted after 1 of 1000 bytes (no success status) leaves a
1-byte file there and the prober reports it valid. -/
theorem interrupted_download_leaves_probe_valid_artifact :
    downloadSucceeds ⟨1000, 1, none⟩ = false ∧
    rnfsExists (downloadFileEffect (fun _ => none) ("/data") ⟨1000, 1, none⟩)
      (MODEL_PATH ("/data")) = true ∧
    checkModelExists (.ok (rnfsExists
      (downloadFileEffect (fun _ => none) ("/data") ⟨1000, 1, none⟩)
      (MODEL_PATH ("/data")))) = true := by
  refine ⟨rfl, ?_, ?_⟩ <;>
    simp [rnfsExists, downloadFileEffect, fsUpdate, checkModelExists]

/-- C2 counterexample: the percent computation is not guarded against
division by zero — at `bytesWritten = 5`, `contentLength = 0` it yields no
well-defined value in `0..100` (JS produces `Infinity`). -/
theorem progressPercent_zero_total_not_in_range :
    ¬ ∃ q : ℚ, progressPercent 5 0 = some q ∧ 0 ≤ q ∧ q ≤ 100 := by
  simp [progressPercent]

/-- C2 amended: when `contentLength` is nonzero and `bytesWritten` does
not exceed it, the emitted percent is exactly
`bytesWritten / contentLength * 100` and lies in `0..100`; there is no
division-by-zero guard, so nothing is claimed for `contentLength = 0`. -/
theorem progressPercent_in_range (bw cl : Nat) (h : cl ≠ 0) (hle : bw ≤ cl) :
    progressPercent bw cl = some ((bw : ℚ) / (cl : ℚ) * 100) ∧
    0 ≤ (bw : ℚ) / (cl : ℚ) * 100 ∧ (bw : ℚ) / (cl : ℚ) * 100 ≤ 100 := by
  have hcl : (0 : ℚ) < (cl : ℚ) := by exact_mod_cast Nat.pos_of_ne_zero h
  refine ⟨by simp [progressPercent, h], by positivity, ?_⟩
  have hdiv : (bw : ℚ) / (cl : ℚ) ≤ 1 := by
    rw [div_le_one hcl]; exact_mod_cast hle
  nlinarith

/-- C2 amended, witness at `bytesWritten = 5`, `contentLength = 10`. -/
theorem progressPercent_in_range_witness :
    progressPercent 5 10 = some ((5 : ℚ) / (10 : ℚ) * 100) ∧
    0 ≤ (5 : ℚ) / (10 : ℚ) * 100 ∧ (5 : ℚ) / (10 : ℚ) * 100 ≤ 100 :=
  progressPercent_in_range 5 10 (by decide) (by decide)

/-- C3: activating against a missing or zero-byte artifact fails with an
invalid-artifact error and the native constructor
(`LlmInference.createFromOptions`) is never invoked. -/
theorem activate_invalid_artifact_fails_before_engine
    (st : BridgeState) (fs : FS) (p : String) (engineOk : Bool)
    (h : fs p = none ∨ fs p = some 0) :
    (∃ m, (initBridge st fs p engineOk).1 = .error m) ∧
    (initBridge st fs p engineOk).2.2 = false := by
  rcases h with h | h <;>
    simp [initBridge, rnfsExists, loadModel, h]

/-- C3, witness: the empty filesystem (missing artifact). -/
theorem activate_invalid_artifact_fails_before_engine_witness :
    (∃ m, (initBridge ⟨none, false⟩ (fun _ => none) ("/data/m.bin") true).1 =
      .error m) ∧
    (initBridge ⟨none, false⟩ (fun _ => none) ("/data/m.bin") true).2.2 = false :=
  activate_invalid_artifact_fails_before_engine ⟨none, false⟩ (fun _ => none)
    ("/data/m.bin") true (Or.inl rfl)

/-- C4: with the bridge initialized, a prompt that is empty after trimming
makes `generate` fail with the empty-prompt error, with no native call and
the bridge state unchanged, whether or not an image is supplied. -/
theorem generate_empty_prompt_fails_without_engine
    (st : BridgeState) (prompt : String) (imagePath : Option String)
    (imageFs : FS) (decodeOk : Bool) (engine : Except String String)
    (hinit : st.isInitialized = true) (hp : jsTrim prompt = "") :
    generate st prompt imagePath imageFs decodeOk engine =
      ⟨.error .emptyPrompt, st, false⟩ := by
  simp [generate, hinit, hp]

/-- C4, witness: a whitespace-only prompt with an image attached. -/
theorem generate_empty_prompt_fails_without_engine_witness :
    generate ⟨some (), true⟩ ("  ") (some ("/img.png")) (fun _ => some 9) true
        (.ok ("hi")) =
      ⟨.error .emptyPrompt, ⟨some (), true⟩, false⟩ :=
  generate_empty_prompt_fails_without_engine ⟨some (), true⟩ ("  ")
    (some ("/img.png")) (fun _ => some 9) true (.ok ("hi")) rfl (by decide)

/-- C5 counterexample: when the engine call throws after the bitmap was
decoded, `bitmap.recycle()` is skipped (the exception jumps to the catch
block), so the decode buffer is not released on that failure exit path. -/
theorem generateWithImage_engine_failure_skips_recycle :
    (generateWithImage true true true (.error ("boom"))).bitmapDecoded = true ∧
    ¬ (generateWithImage true true true (.error ("boom"))).bitmapRecycled = true := by
  refine ⟨rfl, ?_⟩
  simp [generateWithImage]

/-- C5 amended: the decode buffer is released exactly on the success exit
path — `bitmapRecycled` holds iff all guards pass and the engine call
returns normally; on the failure path after decode the buffer is not
released. -/
theorem generateWithImage_recycle_iff_success
    (modelLoaded imageExists decodeOk : Bool)
    (engine : Except String String) :
    (generateWithImage modelLoaded imageExists decodeOk engine).bitmapDecoded =
      (modelLoaded && imageExists && decodeOk) ∧
    (generateWithImage modelLoaded imageExists decodeOk engine).bitmapRecycled =
      (modelLoaded && imageExists && decodeOk && engine.isOk) := by
  cases modelLoaded <;> cases imageExists <;> cases decodeOk <;>
    cases engine <;> simp [generateWithImage, Except.isOk, Except.toBool]

/-- C6 counterexample: ids are not unique — an assistant message created
at clock 100 and a user message created at the later clock 101 are
distinct messages yet share the id string. -/
theorem msgId_collision :
    (Sender.ai, 100) ≠ (Sender.user, 101) ∧
    msgId Sender.ai 100 = msgId Sender.user 101 :=
  ⟨by decide, rfl⟩

/-- C6 amended: ids are time-derived (`now` for a user message, `now + 1`
for an assistant message) and the numbers they are derived from strictly
increase — hence the id strings are pairwise distinct — provided
consecutive creations advance the clock by at least 2; with a smaller gap
neither uniqueness nor monotonicity is guaranteed. -/
theorem idNum_strictMono_of_clock_gap
    (s₁ s₂ : Sender) (t₁ t₂ : Nat) (h : t₁ + 2 ≤ t₂) :
    idNum s₁ t₁ < idNum s₂ t₂ := by
  have h₁ : idNum s₁ t₁ ≤ t₁ + 1 := by cases s₁ <;> simp [idNum]
  have h₂ : t₂ ≤ idNum s₂ t₂ := by cases s₂ <;> simp [idNum]
  omega

/-- C6 amended, witness: assistant at clock 100, user at clock 102. -/
theorem idNum_strictMono_of_clock_gap_witness :
    idNum Sender.ai 100 < idNum Sender.user 102 :=
  idNum_strictMono_of_clock_gap Sender.ai Sender.user 100 102 (by decide)

/-- C7: when the prober reports the artifact present and activation
succeeds, `initModel` never invokes the download and passes through
exactly `Uninitialized, CheckingArtifact, Activating, Ready`. -/
theorem initModel_artifact_present_skips_download
    (probe : Except String Bool) (t : Transfer)
    (h : checkModelExists probe = true) :
    initModel probe t true =
      ⟨[.Uninitialized, .CheckingArtifact, .Activating, .Ready], false, true⟩ := by
  simp [initModel, h]

/-- C7, witness: a probe that returns `true`. -/
theorem initModel_artifact_present_skips_download_witness :
    initModel (.ok true) ⟨0, 0, none⟩ true =
      ⟨[.Uninitialized, .CheckingArtifact, .Activating, .Ready], false, true⟩ :=
  initModel_artifact_present_skips_download (.ok true) ⟨0, 0, none⟩ rfl

/-- C8: a failed generation is scoped to the message — after `sendMessage`
with a rejected generation, `modelReady` is still true, the log is the old
log plus the already-appended user message, and loading is cleared. -/
theorem sendMessage_generation_failure_keeps_ready
    (st : AppState) (now now2 : Nat) (e : String)
    (hready : st.modelReady = true)
    (hguard : ¬(jsTrim st.input = "" ∧ st.selectedImage = none)) :
    (sendMessage st now now2 (.error e)).modelReady = true ∧
    (sendMessage st now now2 (.error e)).messages =
      st.messages ++ [mkUserMsg st now] ∧
    (sendMessage st now now2 (.error e)).loading = false := by
  simp [sendMessage, hready, hguard]

/-- C8, witness: a ready session with one prior message and input "hi". -/
theorem sendMessage_generation_failure_keeps_ready_witness :
    (sendMessage ⟨[⟨"1", "old", .user, none⟩], "hi", none, false, true⟩
        5 6 (.error ("fail"))).modelReady = true ∧
    (sendMessage ⟨[⟨"1", "old", .user, none⟩], "hi", none, false, true⟩
        5 6 (.error ("fail"))).messages =
      [⟨"1", "old", .user, none⟩] ++
        [mkUserMsg ⟨[⟨"1", "old", .user, none⟩], "hi", none, false, true⟩ 5] ∧
    (sendMessage ⟨[⟨"1", "old", .user, none⟩], "hi", none, false, true⟩
        5 6 (.error ("fail"))).loading = false :=
  sendMessage_generation_failure_keeps_ready
    ⟨[⟨"1", "old", .user, none⟩], "hi", none, false, true⟩ 5 6 ("fail") rfl
    (by decide)

/-- C9: deactivation is idempotent — unloading when not initialized is a
successful no-op, the native unload of a null handle resolves without
error, and a second deactivation leaves the state of the first. -/
theorem unload_idempotent (st : BridgeState) (closeFails : Bool) :
    (st.isInitialized = false → unload st closeFails = (.ok (), st)) ∧
    unloadModel none closeFails = .ok none ∧
    (unload (unload st closeFails).2 closeFails).2 =
      (unload st closeFails).2 := by
  obtain ⟨m, i⟩ := st
  cases i <;> cases m <;> cases closeFails <;>
    simp [unload, unloadModel]

/-- C9, witness: a never-activated bridge. -/
theorem unload_idempotent_witness :
    unload ⟨none, false⟩ false = (.ok (), ⟨none, false⟩) ∧
    unloadModel none false = .ok none ∧
    (unload (unload ⟨none, false⟩ false).2 false).2 =
      (unload ⟨none, false⟩ false).2 :=
  ⟨(unload_idempotent ⟨none, false⟩ false).1 rfl,
   (unload_idempotent ⟨none, false⟩ false).2.1,
   (unload_idempotent ⟨none, false⟩ false).2.2⟩

/-- C10: when the underlying existence check throws, `checkModelExists`
returns false instead of propagating, and `initModel` therefore proceeds
to invoke the download. -/
theorem checkModelExists_error_treated_as_absent
    (e : String) (t : Transfer) (activateOk : Bool) :
    checkModelExists (.error e) = false ∧
    (initModel (.error e) t activateOk).downloadInvoked = true := by
  refine ⟨rfl, ?_⟩
  by_cases hd : downloadSucceeds t = false <;> cases activateOk <;>
    simp [initModel, checkModelExists, hd]

end Gemma
